import Mathlib

/-!
Shallow embedding of the WebSocket connection-management layer of the
figma-design-analyzer-mcp repository (src/talk_to_figma_mcp/core):
connectToFigma, sendCommandToFigma, the ws message/close/open handlers
and the request-timeout callbacks, together with proofs of the
specification claims about that layer.

Modelling conventions:
  * JavaScript objects carried in envelopes are `JsValue` trees; field
    absence is `Option`; JS truthiness is made explicit (`JsValue.truthy`,
    `optStrTruthy`, `optValTruthy`).
  * The module-level mutable state (`ws`, `pendingRequests`,
    `currentChannel`) is a `FigmaState` record threaded through the
    handlers.  The `resolve`/`reject` closures of a `PendingRequest` are
    modelled by appending `(id, Completion)` records to a `completions`
    log: one appended record is one invocation of the caller's deferred.
  * `setTimeout`/`clearTimeout` handles are modelled by a list of armed
    `TimerRec`s with fresh token ids (`nextTid`); clearing removes the
    record, so a cleared timer can never fire.  A timer callback runs only
    when the timer is still armed and due.
  * Logging goes to a `log` list (the source writes to stderr); the exact
    log text is abbreviated, it carries no state.
  * JSON.parse failures and frames without a `message` object are outside
    the model: the source catches any throw, logs and drops the frame
    (error category 6 of the spec), touching no state.
-/

/-- JSON-like values (command parameters and result payloads). -/
inductive JsValue where
  | vNull : JsValue
  | vBool : Bool → JsValue
  | vNum : Int → JsValue
  | vStr : String → JsValue
  | vObj : List (String × JsValue) → JsValue
deriving Repr

/-- JavaScript truthiness of a value (NaN is not modelled). -/
def JsValue.truthy : JsValue → Bool
  | .vNull => false
  | .vBool b => b
  | .vNum n => !(n == 0)
  | .vStr s => !(s == "")
  | .vObj _ => true

/-- Truthiness of an optional string field (absent and empty are falsy). -/
def optStrTruthy : Option String → Bool
  | none => false
  | some s => !(s == "")

/-- Truthiness of an optional value field (absent is falsy). -/
def optValTruthy : Option JsValue → Bool
  | none => false
  | some v => v.truthy

/-- figma-types.ts CommandProgressUpdate (the fields the handler reads). -/
structure CommandProgressUpdate where
  commandType : String
  status : String
  progress : Int
  message : String
deriving Repr, DecidableEq

/-- The inner `message` object of an inbound frame: a FigmaResponse
(id, optional result, optional error), possibly carrying progress data. -/
structure InnerMessage where
  id : Option String := none
  result : Option JsValue := none
  error : Option String := none
  data : Option CommandProgressUpdate := none
deriving Repr

/-- A parsed inbound frame, as seen by the ws message handler. -/
structure InboundMsg where
  type : Option String := none
  id : Option String := none
  message : InnerMessage
deriving Repr

/-- figma-types.ts PendingRequest: the resolve/reject closures live in the
completions log, so the record keeps the timer handle and last activity. -/
structure PendingRequest where
  timeoutTid : Nat
  lastActivity : Nat
deriving Repr, DecidableEq

/-- An armed setTimeout: token, the request id its callback captures, and
the absolute time at which it becomes due. -/
structure TimerRec where
  tid : Nat
  reqId : String
  fireAt : Nat
deriving Repr, DecidableEq

/-- One invocation of a caller's deferred: resolve with a value or reject
with an error message. -/
inductive Completion where
  | resolved : JsValue → Completion
  | rejected : String → Completion
deriving Repr

/-- ws.readyState, with `noSocket` for `ws === null`. -/
inductive WsState where
  | noSocket : WsState
  | connecting : WsState
  | opened : WsState
  | wsClosing : WsState
  | wsClosed : WsState
deriving Repr, DecidableEq

/-- The module-level mutable state of the connection layer. -/
structure FigmaState where
  wsState : WsState
  currentChannel : Option String
  pending : List (String × PendingRequest)
  timers : List TimerRec
  nextTid : Nat
  completions : List (String × Completion)
  log : List String
deriving Repr

/-- pendingRequests.has(id). -/
def pendingHas (st : FigmaState) (id : String) : Bool :=
  st.pending.any fun p => p.1 == id

/-- pendingRequests.get(id). -/
def pendingGet (st : FigmaState) (id : String) : Option PendingRequest :=
  (st.pending.find? fun p => p.1 == id).map Prod.snd

/-- pendingRequests.delete(id). -/
def eraseKey (k : String) (l : List (String × PendingRequest)) :
    List (String × PendingRequest) :=
  l.filter fun p => !(p.1 == k)

/-- pendingRequests.set(id, v): replace in place, or append a new entry
(JS Map iteration order is insertion order). -/
def mapSet (k : String) (v : PendingRequest) :
    List (String × PendingRequest) → List (String × PendingRequest)
  | [] => [(k, v)]
  | p :: rest => if p.1 == k then (k, v) :: rest else p :: mapSet k v rest

/-- In-place mutation of the entry with key `k` (progress branch mutates
`request.lastActivity` and `request.timeout` through the map reference). -/
def mapUpdate (k : String) (f : PendingRequest → PendingRequest)
    (l : List (String × PendingRequest)) : List (String × PendingRequest) :=
  l.map fun p => if p.1 == k then (p.1, f p.2) else p

/-- JS object update obj[k] = v (spread-with-override in the source). -/
def objSet (k : String) (v : JsValue) (l : List (String × JsValue)) :
    List (String × JsValue) :=
  (l.filter fun p => !(p.1 == k)) ++ [(k, v)]

/-- Append one log line. -/
def logPush (st : FigmaState) (m : String) : FigmaState :=
  { st with log := st.log ++ [m] }

/-- connectToFigma: synchronous effect on the model state.  If the socket
is already OPEN or CONNECTING it only logs; otherwise any stale socket is
discarded and a fresh WebSocket is created, leaving the connection
CONNECTING.  The 10 s connection timeout and the handler installation are
not part of the state; pendingRequests and currentChannel are untouched. -/
def connectToFigma (st : FigmaState) : FigmaState :=
  match st.wsState with
  | .opened => logPush st "Already connected to Figma"
  | .connecting => logPush st "Connection to Figma is already in progress"
  | _ => { logPush st "Connecting to Figma socket server" with wsState := .connecting }

/-- The wire envelope built by sendCommandToFigma. -/
structure MessageBody where
  id : String
  command : String
  params : List (String × JsValue)
deriving Repr

/-- Outer CommandEnvelope: id, type ("join" or "message"), channel, body. -/
structure CommandEnvelope where
  id : String
  type : String
  channel : Option JsValue
  message : MessageBody
deriving Repr

/-- Synchronous outcome of a sendCommandToFigma call: an immediate
rejection of the returned promise, or an envelope written to the wire. -/
inductive SendResult where
  | rejectedNow : String → SendResult
  | sent : CommandEnvelope → SendResult
deriving Repr

/-- sendCommandToFigma(command, params, timeoutMs).  `freshId` stands for
the uuidv4() value and `now` for Date.now().  Returns the synchronous
outcome together with the updated state. -/
def sendCommandToFigma (st : FigmaState) (command : String)
    (params : List (String × JsValue)) (timeoutMs : Nat)
    (freshId : String) (now : Nat) : SendResult × FigmaState :=
  if !(st.wsState == .opened) then
    (.rejectedNow "Not connected to Figma. Attempting to connect...",
     connectToFigma st)
  else
    let requiresChannel := !(command == "join")
    if requiresChannel && !(optStrTruthy st.currentChannel) then
      (.rejectedNow "Must join a channel before sending commands", st)
    else
      let env : CommandEnvelope :=
        { id := freshId
          type := if command == "join" then "join" else "message"
          channel :=
            if command == "join" then List.lookup "channel" params
            else st.currentChannel.map JsValue.vStr
          message :=
            { id := freshId
              command := command
              params := objSet "commandId" (.vStr freshId) params } }
      let st1 : FigmaState :=
        { st with
          timers := st.timers ++ [⟨st.nextTid, freshId, now + timeoutMs⟩]
          pending := mapSet freshId ⟨st.nextTid, now⟩ st.pending
          nextTid := st.nextTid + 1 }
      (.sent env, logPush st1 ("Sending command to Figma: " ++ command))

/-- The ws "message" handler on a parsed frame at time `now`.

Progress branch (json.type === "progress_update"): if `json.id || ''` is
truthy and registered, update lastActivity, clear the armed timeout and
re-arm a fresh 60 000 ms inactivity timeout; then log (reading the
progress fields throws into the surrounding catch when `data` is absent —
after the timer was already re-armed); a completed/100 update only logs.

Response branch: the frame is a match only when `message.id` is truthy,
registered, and `message.result` is truthy; then the timeout is cleared,
the deferred is rejected with the error text verbatim when `message.error`
is truthy and resolved with the result otherwise, and the entry is
deleted.  Every other frame is logged as a broadcast. -/
def handleWsMessage (st : FigmaState) (json : InboundMsg) (now : Nat) :
    FigmaState :=
  if json.type == some "progress_update" then
    let requestId := json.id.getD ""
    match pendingGet st requestId with
    | some req =>
      if !(requestId == "") then
        let st1 : FigmaState :=
          { st with
            pending := mapUpdate requestId
              (fun r => { r with lastActivity := now, timeoutTid := st.nextTid })
              st.pending
            timers := (st.timers.filter fun t => !(t.tid == req.timeoutTid)) ++
              [⟨st.nextTid, requestId, now + 60000⟩]
            nextTid := st.nextTid + 1 }
        match json.message.data with
        | none => logPush st1 "Error parsing message"
        | some pd =>
          let st2 := logPush st1 ("Progress update for " ++ pd.commandType)
          if pd.status == "completed" && pd.progress == 100 then
            logPush st2
              ("Operation " ++ pd.commandType ++ " completed, waiting for final result")
          else st2
      else st
    | none => st
  else
    match pendingGet st (json.message.id.getD ""), json.message.result with
    | some req, some res =>
      if !(json.message.id.getD "" == "") && res.truthy then
        let rid := json.message.id.getD ""
        let st1 : FigmaState :=
          { st with timers := st.timers.filter fun t => !(t.tid == req.timeoutTid) }
        if optStrTruthy json.message.error then
          { st1 with
            log := st1.log ++ ["Error from Figma: " ++ json.message.error.getD ""]
            completions := st1.completions ++
              [(rid, .rejected (json.message.error.getD ""))]
            pending := eraseKey rid st1.pending }
        else
          { st1 with
            completions := st1.completions ++ [(rid, .resolved res)]
            pending := eraseKey rid st1.pending }
      else logPush st "Received broadcast message"
    | _, _ => logPush st "Received broadcast message"

/-- A request-timeout callback considered at time `now`.  Covers both the
timeout armed in sendCommandToFigma and the 60 s inactivity timeout
re-armed by the progress branch: each checks pendingRequests.has(id), then
deletes the entry and rejects with the timeout error.  The callback runs
only if the timer is still armed (clearTimeout removes it) and due. -/
def fireRequestTimeout (st : FigmaState) (tid : Nat) (now : Nat) : FigmaState :=
  match st.timers.find? fun t => t.tid == tid with
  | none => st
  | some t =>
    if t.fireAt ≤ now then
      let st1 : FigmaState :=
        { st with timers := st.timers.filter fun u => !(u.tid == tid) }
      if pendingHas st1 t.reqId then
        { st1 with
          pending := eraseKey t.reqId st1.pending
          log := st1.log ++ ["Request to Figma timed out"]
          completions := st1.completions ++
            [(t.reqId, .rejected "Request to Figma timed out")] }
      else st1
    else st

/-- The rejection message used by the ws "close" handler. -/
def closeReasonMsg (code : Nat) (reason : String) : String :=
  "Connection closed with code " ++ toString code ++ ": " ++
    (if reason == "" then "No reason provided" else reason)

/-- The ws "close" handler: null the socket, then clear every pending
request's timeout, reject it with the closure reason and delete it.  The
backoff reconnect it schedules is a later connectToFigma call, not a
synchronous state change. -/
def handleWsClose (st : FigmaState) (code : Nat) (reason : String) : FigmaState :=
  { st with
    wsState := .noSocket
    timers := st.timers.filter fun t =>
      !(st.pending.any fun p => p.2.timeoutTid == t.tid)
    completions := st.completions ++
      st.pending.map fun p => (p.1, .rejected (closeReasonMsg code reason))
    pending := []
    log := st.log ++ ["Disconnected from Figma socket server"] }

/-- The ws "open" handler: mark the socket open and reset the channel. -/
def handleWsOpen (st : FigmaState) : FigmaState :=
  { st with
    wsState := .opened
    currentChannel := none
    log := st.log ++ ["Connected to Figma socket server"] }

/-- Events the single-threaded runtime can dispatch to the layer. -/
inductive Event where
  | evOpen : Event
  | evClose : Nat → String → Event
  | evMessage : InboundMsg → Event
  | evTimer : Nat → Event
  | evSend : String → List (String × JsValue) → Nat → String → Event
deriving Repr

/-- An event stamped with the time at which its handler runs. -/
structure TimedEvent where
  now : Nat
  ev : Event
deriving Repr

/-- Dispatch one event to its handler. -/
def step (st : FigmaState) (e : TimedEvent) : FigmaState :=
  match e.ev with
  | .evOpen => handleWsOpen st
  | .evClose c r => handleWsClose st c r
  | .evMessage j => handleWsMessage st j e.now
  | .evTimer tid => fireRequestTimeout st tid e.now
  | .evSend c p tmo fid => (sendCommandToFigma st c p tmo fid e.now).2

/-- Run a trace of events. -/
def run (st : FigmaState) (tr : List TimedEvent) : FigmaState :=
  tr.foldl step st

/-- Number of registered pending entries for an id. -/
def cPend (id : String) (st : FigmaState) : Nat :=
  st.pending.countP fun p => p.1 == id

/-- Number of resolve/reject invocations recorded for an id. -/
def cDone (id : String) (st : FigmaState) : Nat :=
  st.completions.countP fun p => p.1 == id

/-- Whether an event is a sendCommandToFigma call using identifier `id`
(excluded from traces by uuid freshness). -/
def sendsId (id : String) (e : TimedEvent) : Bool :=
  match e.ev with
  | .evSend _ _ _ fid => fid == id
  | _ => false

/-- Whether an event is a ws "close" event. -/
def isCloseEv (e : TimedEvent) : Bool :=
  match e.ev with
  | .evClose _ _ => true
  | _ => false

/-! ### Concrete states, traces and frames used by the claim proofs -/

/-- A progress_update frame for identifier `id` (the outer id routes it). -/
def progressFrame (id ct status : String) (prog : Int) (m : String) : InboundMsg :=
  { type := some "progress_update", id := some id,
    message := { id := none, result := none, error := none,
                 data := some { commandType := ct, status := status,
                                progress := prog, message := m } } }

/-- A terminal response frame: inner message id, optional result payload,
optional error description. -/
def responseFrame (id : String) (result : Option JsValue)
    (error : Option String) : InboundMsg :=
  { type := none, id := none,
    message := { id := some id, result := result, error := error, data := none } }

/-- Concrete opened state with one registered command "r1". -/
def stC1 : FigmaState :=
  { wsState := .opened, currentChannel := some "design-42",
    pending := [("r1", { timeoutTid := 0, lastActivity := 0 })],
    timers := [{ tid := 0, reqId := "r1", fireAt := 30000 }],
    nextTid := 1, completions := [], log := [] }

/-- Concrete opened state with one registered command "r2". -/
def stC2 : FigmaState :=
  { wsState := .opened, currentChannel := some "design-42",
    pending := [("r2", { timeoutTid := 0, lastActivity := 0 })],
    timers := [{ tid := 0, reqId := "r2", fireAt := 30000 }],
    nextTid := 1, completions := [], log := [] }

/-- Concrete opened state with one registered command "w3". -/
def stC3 : FigmaState :=
  { wsState := .opened, currentChannel := some "design-42",
    pending := [("w3", { timeoutTid := 0, lastActivity := 0 })],
    timers := [{ tid := 0, reqId := "w3", fireAt := 30000 }],
    nextTid := 1, completions := [], log := [] }

/-- A trace racing a terminal response, a duplicate terminal response, a
late progress update, a timer firing and a close for "w3". -/
def trC3 : List TimedEvent :=
  [ { now := 5, ev := .evMessage (responseFrame "w3" (some (.vStr "ok")) none) },
    { now := 6, ev := .evMessage (responseFrame "w3" (some (.vStr "dup")) none) },
    { now := 7, ev := .evMessage (progressFrame "w3" "get_document_info" "in_progress" 50 "late") },
    { now := 30000, ev := .evTimer 0 },
    { now := 30001, ev := .evClose 1006 "bye" } ]

/-- Concrete disconnected state with no channel joined. -/
def stC5 : FigmaState :=
  { wsState := .noSocket, currentChannel := none, pending := [],
    timers := [], nextTid := 0, completions := [], log := [] }

/-- Concrete opened state with two outstanding commands. -/
def stC7 : FigmaState :=
  { wsState := .opened, currentChannel := some "design-42",
    pending := [("a1", { timeoutTid := 0, lastActivity := 0 }),
                ("a2", { timeoutTid := 1, lastActivity := 3 })],
    timers := [{ tid := 0, reqId := "a1", fireAt := 30000 },
               { tid := 1, reqId := "a2", fireAt := 30003 }],
    nextTid := 2, completions := [], log := [] }

/-- Fresh opened state with channel "design-42" and nothing outstanding. -/
def stC4base : FigmaState :=
  { wsState := .opened, currentChannel := some "design-42", pending := [],
    timers := [], nextTid := 0, completions := [], log := [] }

/-- Command "a" sent with timeout T = 90000 ms, a progress notification at
T − 1 = 89999 ms, and the re-armed timer firing at 149999 ms. -/
def trC4 : List TimedEvent :=
  [ { now := 0, ev := .evSend "get_document_info" [] 90000 "a" },
    { now := 89999, ev := .evMessage (progressFrame "a" "get_document_info" "in_progress" 50 "half") },
    { now := 149999, ev := .evTimer 1 } ]

/-- Concrete state with command "a" registered with timer 0 due at 30000. -/
def stC4w : FigmaState :=
  { wsState := .opened, currentChannel := some "design-42",
    pending := [("a", { timeoutTid := 0, lastActivity := 0 })],
    timers := [{ tid := 0, reqId := "a", fireAt := 30000 }],
    nextTid := 1, completions := [], log := [] }

/-- Fresh opened state joined to "design-42". -/
def stC6 : FigmaState :=
  { wsState := .opened, currentChannel := some "design-42", pending := [],
    timers := [], nextTid := 0, completions := [], log := [] }

/-- Opened state joined to "design-42" for the reconnection scenario. -/
def stC8 : FigmaState :=
  { wsState := .opened, currentChannel := some "design-42", pending := [],
    timers := [], nextTid := 0, completions := [], log := [] }

/-- Opened state with command "r9" registered, for the C9 scenario. -/
def stC9 : FigmaState :=
  { wsState := .opened, currentChannel := some "design-42",
    pending := [("r9", { timeoutTid := 0, lastActivity := 0 })],
    timers := [{ tid := 0, reqId := "r9", fireAt := 30000 }],
    nextTid := 1, completions := [], log := [] }

/-! ### Auxiliary lemmas about the pending-map and timer operations -/

theorem countP_eraseKey_self (id : String) (l : List (String × PendingRequest)) :
    (eraseKey id l).countP (fun p => p.1 == id) = 0 := by
  rw [eraseKey, List.countP_filter]
  rw [List.countP_eq_zero]
  intro a _ h
  rw [Bool.and_eq_true] at h
  rcases h with ⟨h1, h2⟩
  rw [Bool.not_eq_true'] at h2
  rw [h1] at h2
  cases h2

theorem countP_eraseKey_ne (id k : String) (h : k ≠ id)
    (l : List (String × PendingRequest)) :
    (eraseKey k l).countP (fun p => p.1 == id) = l.countP (fun p => p.1 == id) := by
  rw [eraseKey, List.countP_filter]
  apply List.countP_congr
  intro x _
  constructor
  · intro hx
    rw [Bool.and_eq_true] at hx
    exact hx.1
  · intro hx
    rw [Bool.and_eq_true]
    refine ⟨hx, ?_⟩
    rw [beq_iff_eq] at hx
    rw [Bool.not_eq_true', beq_eq_false_iff_ne]
    rw [hx]
    exact fun hk => h hk.symm

theorem countP_mapSet_ne (id k : String) (v : PendingRequest) (h : k ≠ id)
    (l : List (String × PendingRequest)) :
    (mapSet k v l).countP (fun p => p.1 == id) = l.countP (fun p => p.1 == id) := by
  induction l with
  | nil =>
    simp only [mapSet, List.countP_cons, List.countP_nil]
    have : (k == id) = false := by rw [beq_eq_false_iff_ne]; exact h
    simp [this]
  | cons p rest ih =>
    rw [mapSet]
    by_cases hp : p.1 == k
    · rw [if_pos hp]
      have hpk : p.1 = k := by rwa [beq_iff_eq] at hp
      have h1 : (k == id) = false := by rw [beq_eq_false_iff_ne]; exact h
      have h2 : (p.1 == id) = false := by
        rw [beq_eq_false_iff_ne, hpk]; exact h
      simp [List.countP_cons, h1, h2]
    · rw [if_neg hp]
      simp [List.countP_cons, ih]

theorem countP_mapUpdate (id k : String) (f : PendingRequest → PendingRequest)
    (l : List (String × PendingRequest)) :
    (mapUpdate k f l).countP (fun p => p.1 == id) = l.countP (fun p => p.1 == id) := by
  rw [mapUpdate, List.countP_map]
  apply List.countP_congr
  intro x _
  dsimp [Function.comp]
  by_cases hx : x.1 == k
  · rw [if_pos hx]
  · rw [if_neg hx]

theorem countP_rejectAllMap (id m : String) (l : List (String × PendingRequest)) :
    (l.map fun p => ((p.1 : String), Completion.rejected m)).countP
        (fun q => q.1 == id) = l.countP (fun p => p.1 == id) := by
  rw [List.countP_map]
  apply List.countP_congr
  intro x _
  exact Iff.rfl

theorem countP_single_ne (id k : String) (c : Completion) (h : k ≠ id) :
    ([((k : String), c)]).countP (fun q => q.1 == id) = 0 := by
  have : (k == id) = false := by rw [beq_eq_false_iff_ne]; exact h
  simp [List.countP_cons, this]

theorem countP_single_self (id : String) (c : Completion) :
    ([((id : String), c)]).countP (fun q => q.1 == id) = 1 := by
  simp [List.countP_cons]

theorem find?_mapSet_self (k : String) (v : PendingRequest)
    (l : List (String × PendingRequest)) :
    (mapSet k v l).find? (fun p => p.1 == k) = some (k, v) := by
  induction l with
  | nil => simp [mapSet, List.find?]
  | cons p rest ih =>
    rw [mapSet]
    cases hp : (p.1 == k)
    · rw [if_neg Bool.false_ne_true]
      rw [List.find?]
      simp only [hp]
      exact ih
    · rw [if_pos rfl]
      simp [List.find?]

theorem find?_eraseKey_self (k : String) (l : List (String × PendingRequest)) :
    (eraseKey k l).find? (fun p => p.1 == k) = none := by
  rw [List.find?_eq_none]
  intro a ha
  rw [eraseKey, List.mem_filter] at ha
  intro hk
  have h2 := ha.2
  rw [Bool.not_eq_true'] at h2
  rw [h2] at hk
  cases hk

theorem find?_eraseKey_ne (k id : String) (h : k ≠ id)
    (l : List (String × PendingRequest)) :
    (eraseKey k l).find? (fun p => p.1 == id) = l.find? (fun p => p.1 == id) := by
  induction l with
  | nil => rfl
  | cons p rest ih =>
    rw [eraseKey, List.filter_cons]
    by_cases hp : p.1 == k
    · have hkeep : (!(p.1 == k)) = false := by rw [hp]; rfl
      rw [hkeep]
      simp only [Bool.false_eq_true, if_false]
      have hpid : (p.1 == id) = false := by
        rw [beq_eq_false_iff_ne]
        rw [beq_iff_eq] at hp
        rw [hp]
        exact fun hk => h hk
      rw [List.find?, hpid]
      exact ih
    · have hkeep : (!(p.1 == k)) = true := by
        rw [Bool.not_eq_true', ← Bool.not_eq_true]
        exact hp
      rw [hkeep]
      simp only [if_true]
      rw [List.find?, List.find?]
      by_cases hpid : p.1 == id
      · rw [hpid]
      · rw [Bool.not_eq_true] at hpid
        rw [hpid]
        exact ih

theorem connectToFigma_pending (st : FigmaState) :
    (connectToFigma st).pending = st.pending := by
  rcases st with ⟨ws, ch, pend, tim, tid, comp, lg⟩
  cases ws <;> rfl

theorem connectToFigma_channel (st : FigmaState) :
    (connectToFigma st).currentChannel = st.currentChannel := by
  rcases st with ⟨ws, ch, pend, tim, tid, comp, lg⟩
  cases ws <;> rfl

theorem connectToFigma_completions (st : FigmaState) :
    (connectToFigma st).completions = st.completions := by
  rcases st with ⟨ws, ch, pend, tim, tid, comp, lg⟩
  cases ws <;> rfl

theorem cPend_pos_of_get (st : FigmaState) (id : String) (r : PendingRequest)
    (h : pendingGet st id = some r) : 0 < cPend id st := by
  rw [cPend, List.countP_pos_iff]
  rw [pendingGet] at h
  cases hf : st.pending.find? (fun p => p.1 == id) with
  | none => rw [hf] at h; cases h
  | some pr =>
    have hm := List.mem_of_find?_eq_some hf
    have hp := List.find?_some hf
    exact ⟨pr, hm, hp⟩

theorem pendingHas_pos (st : FigmaState) (id : String)
    (h : pendingHas st id = true) : 0 < cPend id st := by
  rw [cPend, List.countP_pos_iff]
  rw [pendingHas, List.any_eq_true] at h
  exact h

/-- One dispatched event preserves the per-identifier account
`cPend id + cDone id = 1`, provided the event is not a send that reuses
the identifier (uuid freshness). -/
theorem step_preserves_sum (id : String) (st : FigmaState) (e : TimedEvent)
    (hs : sendsId id e = false)
    (h : cPend id st + cDone id st = 1) :
    cPend id (step st e) + cDone id (step st e) = 1 := by
  obtain ⟨now, ev⟩ := e
  cases ev with
  | evOpen =>
    simpa [step, handleWsOpen, cPend, cDone] using h
  | evClose code reason =>
    simp only [step, handleWsClose, cPend, cDone, List.countP_nil,
      List.countP_append, countP_rejectAllMap]
    simp only [cPend, cDone] at h
    omega
  | evTimer tid =>
    simp only [step, fireRequestTimeout]
    cases hf : st.timers.find? (fun t => t.tid == tid) with
    | none => simpa [cPend, cDone] using h
    | some t =>
      dsimp only
      by_cases hdue : t.fireAt ≤ now
      · rw [if_pos hdue]
        by_cases hph : pendingHas
            { st with timers := st.timers.filter fun u => !(u.tid == tid) } t.reqId = true
        · rw [if_pos hph]
          by_cases hrid : t.reqId = id
          · subst hrid
            have hpos : 0 < cPend t.reqId st := by
              have := pendingHas_pos _ _ hph
              simpa [cPend] using this
            simp only [cPend, cDone, List.countP_append, countP_eraseKey_self,
              countP_single_self]
            simp only [cPend, cDone] at h hpos
            omega
          · simp only [cPend, cDone, List.countP_append,
              countP_eraseKey_ne id t.reqId hrid, countP_single_ne id t.reqId _ hrid]
            simp only [cPend, cDone] at h
            omega
        · rw [if_neg hph]
          simpa [cPend, cDone] using h
      · rw [if_neg hdue]
        simpa [cPend, cDone] using h
  | evMessage j =>
    simp only [step, handleWsMessage]
    by_cases hpt : (j.type == some "progress_update") = true
    · rw [if_pos hpt]
      cases hg : pendingGet st (j.id.getD "") with
      | none => simpa [cPend, cDone] using h
      | some req =>
        dsimp only
        by_cases hrid : (!(j.id.getD "" == "")) = true
        · rw [if_pos hrid]
          cases j.message.data with
          | none =>
            simpa [logPush, cPend, cDone, countP_mapUpdate] using h
          | some pd =>
            dsimp only
            by_cases hc : (pd.status == "completed" && pd.progress == 100) = true
            · rw [if_pos hc]
              simpa [logPush, cPend, cDone, countP_mapUpdate] using h
            · rw [if_neg hc]
              simpa [logPush, cPend, cDone, countP_mapUpdate] using h
        · rw [if_neg hrid]
          simpa [cPend, cDone] using h
    · rw [if_neg hpt]
      cases hg : pendingGet st (j.message.id.getD "") with
      | none =>
        cases hr : j.message.result with
        | none => simpa [logPush, cPend, cDone] using h
        | some res => simpa [logPush, cPend, cDone] using h
      | some req =>
        cases hr : j.message.result with
        | none => simpa [logPush, cPend, cDone] using h
        | some res =>
          dsimp only
          by_cases hgd : (!(j.message.id.getD "" == "") && res.truthy) = true
          · rw [if_pos hgd]
            have hpos : 0 < cPend (j.message.id.getD "") st :=
              cPend_pos_of_get st _ req hg
            by_cases he : optStrTruthy j.message.error = true
            · rw [if_pos he]
              by_cases hth : j.message.id.getD "" = id
              · rw [hth] at hpos ⊢
                simp only [cPend, cDone, List.countP_append, countP_eraseKey_self,
                  countP_single_self]
                simp only [cPend, cDone] at h hpos
                omega
              · simp only [cPend, cDone, List.countP_append,
                  countP_eraseKey_ne id _ hth, countP_single_ne id _ _ hth]
                simp only [cPend, cDone] at h
                omega
            · rw [if_neg he]
              by_cases hth : j.message.id.getD "" = id
              · rw [hth] at hpos ⊢
                simp only [cPend, cDone, List.countP_append, countP_eraseKey_self,
                  countP_single_self]
                simp only [cPend, cDone] at h hpos
                omega
              · simp only [cPend, cDone, List.countP_append,
                  countP_eraseKey_ne id _ hth, countP_single_ne id _ _ hth]
                simp only [cPend, cDone] at h
                omega
          · rw [if_neg hgd]
            simpa [logPush, cPend, cDone] using h
  | evSend c p tmo fid =>
    have hfid : fid ≠ id := by
      simp only [sendsId] at hs
      rw [beq_eq_false_iff_ne] at hs
      exact hs
    simp only [step, sendCommandToFigma]
    by_cases hws : (!(st.wsState == WsState.opened)) = true
    · rw [if_pos hws]
      simp only [cPend, cDone, connectToFigma_pending, connectToFigma_completions]
      simp only [cPend, cDone] at h
      omega
    · rw [if_neg hws]
      by_cases hch : (!(c == "join") && !(optStrTruthy st.currentChannel)) = true
      · rw [if_pos hch]
        simpa [cPend, cDone] using h
      · rw [if_neg hch]
        simp only [logPush, cPend, cDone, countP_mapSet_ne id fid _ hfid]
        simp only [cPend, cDone] at h
        omega

/-- One dispatched event never re-registers an identifier that is not
pending, provided it is not a send reusing the identifier. -/
theorem step_cPend_zero (id : String) (st : FigmaState) (e : TimedEvent)
    (hs : sendsId id e = false)
    (h : cPend id st = 0) : cPend id (step st e) = 0 := by
  obtain ⟨now, ev⟩ := e
  cases ev with
  | evOpen =>
    simpa [step, handleWsOpen, cPend] using h
  | evClose code reason =>
    simp [step, handleWsClose, cPend]
  | evTimer tid =>
    simp only [step, fireRequestTimeout]
    cases hf : st.timers.find? (fun t => t.tid == tid) with
    | none => simpa [cPend] using h
    | some t =>
      dsimp only
      by_cases hdue : t.fireAt ≤ now
      · rw [if_pos hdue]
        by_cases hph : pendingHas
            { st with timers := st.timers.filter fun u => !(u.tid == tid) } t.reqId = true
        · rw [if_pos hph]
          by_cases hrid : t.reqId = id
          · subst hrid
            simp [cPend, countP_eraseKey_self]
          · simpa [cPend, countP_eraseKey_ne id t.reqId hrid] using h
        · rw [if_neg hph]
          simpa [cPend] using h
      · rw [if_neg hdue]
        simpa [cPend] using h
  | evMessage j =>
    simp only [step, handleWsMessage]
    by_cases hpt : (j.type == some "progress_update") = true
    · rw [if_pos hpt]
      cases hg : pendingGet st (j.id.getD "") with
      | none => simpa [cPend] using h
      | some req =>
        dsimp only
        by_cases hrid : (!(j.id.getD "" == "")) = true
        · rw [if_pos hrid]
          cases j.message.data with
          | none =>
            simpa [logPush, cPend, countP_mapUpdate] using h
          | some pd =>
            dsimp only
            by_cases hc : (pd.status == "completed" && pd.progress == 100) = true
            · rw [if_pos hc]
              simpa [logPush, cPend, countP_mapUpdate] using h
            · rw [if_neg hc]
              simpa [logPush, cPend, countP_mapUpdate] using h
        · rw [if_neg hrid]
          simpa [cPend] using h
    · rw [if_neg hpt]
      cases hg : pendingGet st (j.message.id.getD "") with
      | none =>
        cases hr : j.message.result with
        | none => simpa [logPush, cPend] using h
        | some res => simpa [logPush, cPend] using h
      | some req =>
        cases hr : j.message.result with
        | none => simpa [logPush, cPend] using h
        | some res =>
          dsimp only
          by_cases hgd : (!(j.message.id.getD "" == "") && res.truthy) = true
          · rw [if_pos hgd]
            by_cases he : optStrTruthy j.message.error = true
            · rw [if_pos he]
              by_cases hth : j.message.id.getD "" = id
              · rw [hth]
                simp [cPend, countP_eraseKey_self]
              · simpa [cPend, countP_eraseKey_ne id _ hth] using h
            · rw [if_neg he]
              by_cases hth : j.message.id.getD "" = id
              · rw [hth]
                simp [cPend, countP_eraseKey_self]
              · simpa [cPend, countP_eraseKey_ne id _ hth] using h
          · rw [if_neg hgd]
            simpa [logPush, cPend] using h
  | evSend c p tmo fid =>
    have hfid : fid ≠ id := by
      simp only [sendsId] at hs
      rw [beq_eq_false_iff_ne] at hs
      exact hs
    simp only [step, sendCommandToFigma]
    by_cases hws : (!(st.wsState == WsState.opened)) = true
    · rw [if_pos hws]
      simpa [cPend, connectToFigma_pending] using h
    · rw [if_neg hws]
      by_cases hch : (!(c == "join") && !(optStrTruthy st.currentChannel)) = true
      · rw [if_pos hch]
        simpa [cPend] using h
      · rw [if_neg hch]
        simpa [logPush, cPend, countP_mapSet_ne id fid _ hfid] using h

/-- A whole trace preserves the per-identifier account. -/
theorem run_preserves_sum (id : String) (tr : List TimedEvent) :
    ∀ st : FigmaState, (∀ e ∈ tr, sendsId id e = false) →
    cPend id st + cDone id st = 1 →
    cPend id (run st tr) + cDone id (run st tr) = 1 := by
  induction tr with
  | nil => intro st _ h; exact h
  | cons e tr ih =>
    intro st hf h
    show cPend id (run (step st e) tr) + cDone id (run (step st e) tr) = 1
    exact ih (step st e) (fun x hx => hf x (List.mem_cons_of_mem _ hx))
      (step_preserves_sum id st e (hf e (List.mem_cons_self _ _)) h)

/-- A whole trace keeps a non-pending identifier non-pending. -/
theorem run_cPend_zero (id : String) (tr : List TimedEvent) :
    ∀ st : FigmaState, (∀ e ∈ tr, sendsId id e = false) →
    cPend id st = 0 → cPend id (run st tr) = 0 := by
  induction tr with
  | nil => intro st _ h; exact h
  | cons e tr ih =>
    intro st hf h
    show cPend id (run (step st e) tr) = 0
    exact ih (step st e) (fun x hx => hf x (List.mem_cons_of_mem _ hx))
      (step_cPend_zero id st e (hf e (List.mem_cons_self _ _)) h)

/-- After a trace containing a close event, the identifier's deferred has
been completed exactly once. -/
theorem run_cDone_one_of_close (id : String) (tr : List TimedEvent) :
    ∀ st : FigmaState, (∀ e ∈ tr, sendsId id e = false) →
    cPend id st + cDone id st = 1 →
    (∃ e ∈ tr, isCloseEv e = true) →
    cDone id (run st tr) = 1 := by
  induction tr with
  | nil =>
    rintro st _ _ ⟨e, he, _⟩
    cases he
  | cons e tr ih =>
    rintro st hf hsum ⟨e2, he2, hclose⟩
    have hffst : sendsId id e = false := hf e (List.mem_cons_self _ _)
    have hftail : ∀ x ∈ tr, sendsId id x = false :=
      fun x hx => hf x (List.mem_cons_of_mem _ hx)
    have hsum2 : cPend id (step st e) + cDone id (step st e) = 1 :=
      step_preserves_sum id st e hffst hsum
    show cDone id (run (step st e) tr) = 1
    rcases List.mem_cons.1 he2 with heq | htail
    · subst heq
      have h0 : cPend id (step st e2) = 0 := by
        obtain ⟨n2, ev2⟩ := e2
        cases ev2 <;> simp [isCloseEv] at hclose
        simp [step, handleWsClose, cPend]
      have hz := run_cPend_zero id tr (step st e2) hftail h0
      have hs2 := run_preserves_sum id tr (step st e2) hftail hsum2
      omega
    · exact ih (step st e) hftail hsum2 ⟨e2, htail, hclose⟩

theorem any_eraseKey_self (k : String) (l : List (String × PendingRequest)) :
    ((eraseKey k l).any fun p => p.1 == k) = false := by
  rw [← Bool.not_eq_true, List.any_eq_true]
  rintro ⟨a, ha, hk⟩
  rw [eraseKey, List.mem_filter] at ha
  have h2 := ha.2
  rw [Bool.not_eq_true'] at h2
  rw [h2] at hk
  cases hk

theorem find?_mapUpdate_self (k : String) (f : PendingRequest → PendingRequest)
    (l : List (String × PendingRequest)) (pr : String × PendingRequest)
    (h : l.find? (fun p => p.1 == k) = some pr) :
    (mapUpdate k f l).find? (fun p => p.1 == k) = some (pr.1, f pr.2) := by
  induction l with
  | nil => cases h
  | cons p rest ih =>
    rw [List.find?] at h
    by_cases hp : (p.1 == k) = true
    · rw [hp] at h
      have h2 : some p = some pr := h
      injection h2 with h3
      subst h3
      rw [mapUpdate, List.map_cons, if_pos hp]
      have hgoal : List.find? (fun q => q.1 == k)
          ((p.1, f p.2) :: mapUpdate k f rest) = some (p.1, f p.2) := by
        rw [List.find?]
        rw [show ((p.1, f p.2).1 == k) = true from hp]
      exact hgoal
    · have hp2 : (p.1 == k) = false := by rwa [Bool.not_eq_true] at hp
      rw [hp2] at h
      have h2 : List.find? (fun q => q.1 == k) rest = some pr := h
      rw [mapUpdate, List.map_cons, if_neg hp]
      have hgoal : List.find? (fun q => q.1 == k)
          (p :: mapUpdate k f rest) = some (pr.1, f pr.2) := by
        rw [List.find?]
        rw [show ((p : String × PendingRequest).1 == k) = false from hp2]
        exact ih h2
      exact hgoal

theorem lookup_objSet (k : String) (v : JsValue) (l : List (String × JsValue)) :
    List.lookup k (objSet k v l) = some v := by
  induction l with
  | nil => simp [objSet, List.lookup]
  | cons p rest ih =>
    rw [objSet, List.filter_cons]
    by_cases hp : (p.1 == k) = true
    · rw [if_neg (by simp [hp])]
      rw [objSet] at ih
      exact ih
    · have hp2 : (p.1 == k) = false := by rwa [Bool.not_eq_true] at hp
      rw [if_pos (by simp [hp2])]
      rw [List.cons_append, List.lookup]
      have hkp : (k == p.1) = false := by
        rw [beq_eq_false_iff_ne] at hp2 ⊢
        exact fun he => hp2 he.symm
      rw [hkp]
      rw [objSet] at ih
      exact ih

/-- A terminal response with truthy result and no error resolves the
registered command with the result and removes it. -/
theorem response_resolves (st : FigmaState) (rid : String) (req : PendingRequest)
    (res : JsValue) (now : Nat)
    (hg : pendingGet st rid = some req) (hrid : rid ≠ "")
    (hres : res.truthy = true) :
    (handleWsMessage st (responseFrame rid (some res) none) now).completions =
      st.completions ++ [(rid, Completion.resolved res)] ∧
    pendingHas (handleWsMessage st (responseFrame rid (some res) none) now) rid = false ∧
    (handleWsMessage st (responseFrame rid (some res) none) now).pending =
      eraseKey rid st.pending := by
  have hbeq : (rid == "") = false := by rw [beq_eq_false_iff_ne]; exact hrid
  simp only [handleWsMessage, responseFrame]
  rw [if_neg (by decide)]
  rw [Option.getD_some]
  rw [hg]
  dsimp only
  rw [if_pos (by rw [hbeq, hres]; rfl)]
  rw [if_neg (by rw [optStrTruthy]; exact Bool.false_ne_true)]
  refine ⟨rfl, ?_, rfl⟩
  exact any_eraseKey_self rid st.pending

/-! ### Claim theorems -/

/-- C1: evaluation of the code at the failing input.  A terminal response
whose identifier matches the registered PendingCommand "r1" but whose
result field is missing and which carries no error is NOT resolved with an
empty result and removed, contrary to the claim: the truthiness check on
`message.result` makes the handler treat the frame as a broadcast, no
completion is recorded, and the PendingCommand stays registered. -/
theorem C1_empty_result_response_left_pending :
    (handleWsMessage stC1 (responseFrame "r1" none none) 5).completions = [] ∧
    pendingHas (handleWsMessage stC1 (responseFrame "r1" none none) 5) "r1" = true ∧
    (handleWsMessage stC1 (responseFrame "r1" none none) 5).pending = stC1.pending :=
  ⟨rfl, rfl, rfl⟩

/-- C2 counterexample: a terminal response for the registered command "r2"
carrying the error description "boom" but no result payload does not
reject the caller's deferred at all — no completion is recorded and the
command stays registered — refuting the claim's "regardless of whether a
result payload is also present". -/
theorem C2_cex_error_without_result_ignored :
    (handleWsMessage stC2 (responseFrame "r2" none (some "boom")) 5).completions = [] ∧
    pendingHas (handleWsMessage stC2 (responseFrame "r2" none (some "boom")) 5) "r2" = true :=
  ⟨rfl, rfl⟩

/-- C2 (amended): when an inbound terminal response whose identifier
matches a registered PendingCommand carries an error description and a
truthy result payload, the caller's deferred is rejected with the error
description verbatim and the entry is removed. -/
theorem C2_error_with_result_rejected_verbatim (st : FigmaState)
    (rid err : String) (req : PendingRequest) (res : JsValue)
    (d : Option CommandProgressUpdate) (now : Nat)
    (hg : pendingGet st rid = some req) (hrid : rid ≠ "")
    (hres : res.truthy = true) (herr : err ≠ "") :
    (handleWsMessage st
        { type := none, id := none,
          message := { id := some rid, result := some res,
                       error := some err, data := d } } now).completions =
      st.completions ++ [(rid, Completion.rejected err)] ∧
    pendingHas (handleWsMessage st
        { type := none, id := none,
          message := { id := some rid, result := some res,
                       error := some err, data := d } } now) rid = false := by
  have hbeq : (rid == "") = false := by rw [beq_eq_false_iff_ne]; exact hrid
  have herrb : (err == "") = false := by rw [beq_eq_false_iff_ne]; exact herr
  simp only [handleWsMessage]
  rw [if_neg (by decide)]
  rw [Option.getD_some]
  rw [hg]
  dsimp only
  rw [if_pos (by rw [hbeq, hres]; rfl)]
  rw [if_pos (by rw [optStrTruthy, herrb]; rfl)]
  refine ⟨rfl, ?_⟩
  exact any_eraseKey_self rid st.pending

/-- Witness for C2's amended theorem at a concrete input. -/
theorem C2_amended_witness :
    (handleWsMessage stC2
        { type := none, id := none,
          message := { id := some "r2", result := some (.vStr "x"),
                       error := some "boom", data := none } } 5).completions =
      stC2.completions ++ [("r2", Completion.rejected "boom")] ∧
    pendingHas (handleWsMessage stC2
        { type := none, id := none,
          message := { id := some "r2", result := some (.vStr "x"),
                       error := some "boom", data := none } } 5) "r2" = false :=
  C2_error_with_result_rejected_verbatim stC2 "r2" "boom"
    { timeoutTid := 0, lastActivity := 0 } (.vStr "x") none 5 rfl
    (by decide) rfl (by decide)

/-- C3: for a registered identifier, across any interleaving of inbound
frames (duplicate terminal responses, late progress updates), timer
firings, connection closes and sends of other identifiers, the caller's
deferred is completed at most once — never both resolve and reject, never
twice — and exactly once as soon as the trace contains a close event. -/
theorem C3_at_most_one_completion (st : FigmaState) (tr : List TimedEvent)
    (id : String)
    (hreg : cPend id st = 1) (hnone : cDone id st = 0)
    (hfresh : ∀ e ∈ tr, sendsId id e = false) :
    cDone id (run st tr) ≤ 1 ∧
    cPend id (run st tr) + cDone id (run st tr) = 1 ∧
    ((∃ e ∈ tr, isCloseEv e = true) → cDone id (run st tr) = 1) := by
  have hsum : cPend id st + cDone id st = 1 := by omega
  have hrun := run_preserves_sum id tr st hfresh hsum
  refine ⟨by omega, hrun, ?_⟩
  exact run_cDone_one_of_close id tr st hfresh hsum

/-- Witness for C3 at a concrete racing trace. -/
theorem C3_witness :
    cDone "w3" (run stC3 trC3) ≤ 1 ∧
    cPend "w3" (run stC3 trC3) + cDone "w3" (run stC3 trC3) = 1 ∧
    cDone "w3" (run stC3 trC3) = 1 := by
  have h := C3_at_most_one_completion stC3 trC3 "w3" rfl rfl (by decide)
  refine ⟨h.1, h.2.1, h.2.2 ⟨{ now := 30001, ev := .evClose 1006 "bye" }, ?_, rfl⟩⟩
  exact List.mem_cons_of_mem _ (List.mem_cons_of_mem _ (List.mem_cons_of_mem _
    (List.mem_cons_of_mem _ (List.mem_cons_self _ _))))

/-- C5 counterexample: with no open Connection and no channel joined, a
non-join command is rejected with the not-connected error, not the
no-channel error — the no-channel rejection is not independent of the
Connection's state. -/
theorem C5_cex_disconnected_rejects_not_connected :
    stC5.currentChannel = none ∧
    (sendCommandToFigma stC5 "get_document_info" [] 30000 "u1" 0).1 =
      SendResult.rejectedNow "Not connected to Figma. Attempting to connect..." ∧
    (("Not connected to Figma. Attempting to connect..." : String) ==
      "Must join a channel before sending commands") = false :=
  ⟨rfl, rfl, by decide⟩

/-- C5 (amended): when the Connection is open and no channel has been
joined, every command other than join rejects with the no-channel error;
when the Connection is not open, the not-connected rejection takes
precedence instead. -/
theorem C5_no_channel_gating_when_open (st : FigmaState) (command : String)
    (params : List (String × JsValue)) (tmo : Nat) (fid : String) (now : Nat)
    (hopen : st.wsState = .opened) (hch : st.currentChannel = none)
    (hc : command ≠ "join") :
    (sendCommandToFigma st command params tmo fid now).1 =
      SendResult.rejectedNow "Must join a channel before sending commands" := by
  have hcb : (command == "join") = false := by rw [beq_eq_false_iff_ne]; exact hc
  simp only [sendCommandToFigma]
  rw [if_neg (by rw [hopen]; decide)]
  rw [if_pos (by rw [hcb, hch]; rfl)]

/-- Witness for C5's amended theorem at a concrete input. -/
theorem C5_amended_witness :
    (sendCommandToFigma { stC5 with wsState := .opened }
        "get_document_info" [] 30000 "u1" 0).1 =
      SendResult.rejectedNow "Must join a channel before sending commands" :=
  C5_no_channel_gating_when_open { stC5 with wsState := .opened }
    "get_document_info" [] 30000 "u1" 0 rfl rfl (by decide)

/-- C7: when the connection's close event fires with M commands
outstanding, every one of them is rejected with the connection-closed
error and removed, and the pending map is empty immediately after the
close handler runs. -/
theorem C7_close_flushes_all_pending (st : FigmaState) (code : Nat) (reason : String) :
    (handleWsClose st code reason).pending = [] ∧
    (handleWsClose st code reason).completions =
      st.completions ++
        (st.pending.map fun p => (p.1, Completion.rejected (closeReasonMsg code reason))) ∧
    ∀ p ∈ st.pending,
      (p.1, Completion.rejected (closeReasonMsg code reason)) ∈
        (handleWsClose st code reason).completions := by
  refine ⟨rfl, rfl, ?_⟩
  intro p hp
  rw [handleWsClose]
  apply List.mem_append_right
  exact List.mem_map_of_mem _ hp

/-- Witness for C7 at a concrete state with two outstanding commands. -/
theorem C7_witness :
    (handleWsClose stC7 1006 "gone").pending = [] ∧
    ("a1", Completion.rejected (closeReasonMsg 1006 "gone")) ∈
      (handleWsClose stC7 1006 "gone").completions ∧
    ("a2", Completion.rejected (closeReasonMsg 1006 "gone")) ∈
      (handleWsClose stC7 1006 "gone").completions := by
  have h := C7_close_flushes_all_pending stC7 1006 "gone"
  refine ⟨h.1, ?_, ?_⟩
  · exact h.2.2 ("a1", { timeoutTid := 0, lastActivity := 0 }) (by simp [stC7])
  · exact h.2.2 ("a2", { timeoutTid := 1, lastActivity := 3 }) (by simp [stC7])

/-- C10: whenever sendCommandToFigma rejects synchronously (not-connected
or no-channel), no PendingCommand is registered and the current Channel is
unchanged; the rejectedNow outcome itself carries no envelope, so nothing
is written to the socket. -/
theorem C10_sync_reject_no_side_effects (st : FigmaState) (command : String)
    (params : List (String × JsValue)) (tmo : Nat) (fid : String) (now : Nat)
    (m : String)
    (h : (sendCommandToFigma st command params tmo fid now).1 =
      SendResult.rejectedNow m) :
    (sendCommandToFigma st command params tmo fid now).2.pending = st.pending ∧
    (sendCommandToFigma st command params tmo fid now).2.currentChannel =
      st.currentChannel := by
  simp only [sendCommandToFigma] at h ⊢
  by_cases hws : (!(st.wsState == WsState.opened)) = true
  · rw [if_pos hws]
    exact ⟨connectToFigma_pending st, connectToFigma_channel st⟩
  · rw [if_neg hws] at h ⊢
    by_cases hch : (!(command == "join") && !(optStrTruthy st.currentChannel)) = true
    · rw [if_pos hch]
      exact ⟨rfl, rfl⟩
    · rw [if_neg hch] at h
      cases h

/-- Witness for C10 at a concrete no-channel rejection. -/
theorem C10_witness :
    (sendCommandToFigma { stC5 with wsState := .opened }
        "get_styles" [] 30000 "u9" 2).2.pending =
      ({ stC5 with wsState := .opened } : FigmaState).pending ∧
    (sendCommandToFigma { stC5 with wsState := .opened }
        "get_styles" [] 30000 "u9" 2).2.currentChannel =
      ({ stC5 with wsState := .opened } : FigmaState).currentChannel :=
  C10_sync_reject_no_side_effects { stC5 with wsState := .opened }
    "get_styles" [] 30000 "u9" 2 "Must join a channel before sending commands" rfl

/-- C4 counterexample: the claim says a command sent with timeout
T = 90000 whose progress arrives at 89999 survives until
89999 + 90000 = 179999; but the code re-arms a fixed 60000 ms inactivity
timeout, so the timer due at 149999 — strictly before 179999 — fires and
rejects the command with the timeout error. -/
theorem C4_cex_rearm_is_60000_not_T :
    cDone "a" (run stC4base trC4) = 1 ∧
    (run stC4base trC4).completions =
      [("a", Completion.rejected "Request to Figma timed out")] ∧
    149999 < 89999 + 90000 :=
  ⟨rfl, rfl, by decide⟩

/-- C4 (amended): a progress notification for a registered command cancels
the armed timeout and re-arms an inactivity timeout of the fixed duration
60000 ms (not the command's original timeout duration): afterwards the
command is still registered with the fresh timer handle, the only armed
timer for it is due at now + 60000, and no timer firing strictly before
that instant removes it — the window is inactivity-based. -/
theorem C4_progress_rearms_fixed_60000 (st : FigmaState) (id ct status m : String)
    (prog : Int) (req : PendingRequest) (p : Nat)
    (hg : pendingGet st id = some req) (hid : id ≠ "")
    (huniq : ∀ t ∈ st.timers, t.reqId = id → t.tid = req.timeoutTid) :
    pendingGet (handleWsMessage st (progressFrame id ct status prog m) p) id =
      some { timeoutTid := st.nextTid, lastActivity := p } ∧
    ({ tid := st.nextTid, reqId := id, fireAt := p + 60000 } : TimerRec) ∈
      (handleWsMessage st (progressFrame id ct status prog m) p).timers ∧
    (∀ t ∈ (handleWsMessage st (progressFrame id ct status prog m) p).timers,
        t.reqId = id →
        t = { tid := st.nextTid, reqId := id, fireAt := p + 60000 }) ∧
    (∀ tid2 now2, now2 < p + 60000 →
        pendingGet (fireRequestTimeout
            (handleWsMessage st (progressFrame id ct status prog m) p) tid2 now2) id =
          some { timeoutTid := st.nextTid, lastActivity := p }) := by
  have hbeq : (id == "") = false := by rw [beq_eq_false_iff_ne]; exact hid
  have hpend : (handleWsMessage st (progressFrame id ct status prog m) p).pending =
      mapUpdate id (fun r => { r with lastActivity := p, timeoutTid := st.nextTid })
        st.pending := by
    simp only [handleWsMessage, progressFrame]
    rw [if_pos (by decide)]
    rw [Option.getD_some]
    rw [hg]
    dsimp only
    rw [if_pos (by rw [hbeq]; rfl)]
    split <;> rfl
  have htim : (handleWsMessage st (progressFrame id ct status prog m) p).timers =
      (st.timers.filter fun t => !(t.tid == req.timeoutTid)) ++
        [{ tid := st.nextTid, reqId := id, fireAt := p + 60000 }] := by
    simp only [handleWsMessage, progressFrame]
    rw [if_pos (by decide)]
    rw [Option.getD_some]
    rw [hg]
    dsimp only
    rw [if_pos (by rw [hbeq]; rfl)]
    split <;> rfl
  obtain ⟨pr, hf, hpr⟩ : ∃ pr, st.pending.find? (fun q => q.1 == id) = some pr ∧
      pr.2 = req := by
    rw [pendingGet] at hg
    cases hf : st.pending.find? (fun q => q.1 == id) with
    | none => rw [hf] at hg; cases hg
    | some pr =>
      rw [hf] at hg
      injection hg with h2
      exact ⟨pr, rfl, h2⟩
  have hfind := find?_mapUpdate_self id
    (fun r => { r with lastActivity := p, timeoutTid := st.nextTid }) st.pending pr hf
  have hget1 : pendingGet (handleWsMessage st (progressFrame id ct status prog m) p) id =
      some { timeoutTid := st.nextTid, lastActivity := p } := by
    rw [pendingGet, hpend, hfind]
    rfl
  refine ⟨hget1, ?_, ?_, ?_⟩
  · rw [htim]
    exact List.mem_append_right _ (List.mem_singleton.2 rfl)
  · intro t ht hrid
    rw [htim] at ht
    rcases List.mem_append.1 ht with hl | hr
    · rw [List.mem_filter] at hl
      have htid := huniq t hl.1 hrid
      have hcond := hl.2
      rw [Bool.not_eq_true', beq_eq_false_iff_ne] at hcond
      exact absurd htid hcond
    · exact List.mem_singleton.1 hr
  · intro tid2 now2 hlt
    have hconj3 : ∀ t ∈ (handleWsMessage st (progressFrame id ct status prog m) p).timers,
        t.reqId = id →
        t = { tid := st.nextTid, reqId := id, fireAt := p + 60000 } := by
      intro t ht hrid
      rw [htim] at ht
      rcases List.mem_append.1 ht with hl | hr
      · rw [List.mem_filter] at hl
        have htid := huniq t hl.1 hrid
        have hcond := hl.2
        rw [Bool.not_eq_true', beq_eq_false_iff_ne] at hcond
        exact absurd htid hcond
      · exact List.mem_singleton.1 hr
    simp only [fireRequestTimeout]
    cases hf2 : (handleWsMessage st (progressFrame id ct status prog m) p).timers.find?
        (fun t => t.tid == tid2) with
    | none => exact hget1
    | some t =>
      dsimp only
      have hmem := List.mem_of_find?_eq_some hf2
      by_cases hdue : t.fireAt ≤ now2
      · rw [if_pos hdue]
        by_cases hti : t.reqId = id
        · have ht2 := hconj3 t hmem hti
          rw [ht2] at hdue
          have hge : p + 60000 ≤ now2 := hdue
          exact absurd hlt (by omega)
        · by_cases hph : pendingHas
              { handleWsMessage st (progressFrame id ct status prog m) p with
                timers := (handleWsMessage st (progressFrame id ct status prog m) p).timers.filter
                  fun u => !(u.tid == tid2) } t.reqId = true
          · rw [if_pos hph]
            rw [pendingGet]
            dsimp only
            rw [eraseKey] at *
            rw [show (List.filter (fun q => !(q.1 == t.reqId))
                (handleWsMessage st (progressFrame id ct status prog m) p).pending).find?
                  (fun q => q.1 == id) =
                ((handleWsMessage st (progressFrame id ct status prog m) p).pending).find?
                  (fun q => q.1 == id) from find?_eraseKey_ne t.reqId id hti _]
            rw [← pendingGet]
            exact hget1
          · rw [if_neg hph]
            exact hget1
      · rw [if_neg hdue]
        exact hget1

/-- Witness for C4's amended theorem: progress at 29999 re-arms at 89999. -/
theorem C4_amended_witness :
    pendingGet (handleWsMessage stC4w
        (progressFrame "a" "get_document_info" "in_progress" 50 "half") 29999) "a" =
      some { timeoutTid := 1, lastActivity := 29999 } ∧
    ({ tid := 1, reqId := "a", fireAt := 89999 } : TimerRec) ∈
      (handleWsMessage stC4w
        (progressFrame "a" "get_document_info" "in_progress" 50 "half") 29999).timers := by
  have h := C4_progress_rearms_fixed_60000 stC4w "a" "get_document_info"
    "in_progress" "half" 50 { timeoutTid := 0, lastActivity := 0 } 29999 rfl
    (by decide) (by decide)
  exact ⟨h.1, h.2.1⟩

theorem pendingGet_mapUpdate_self (l : List (String × PendingRequest))
    (k : String) (f : PendingRequest → PendingRequest) (req : PendingRequest)
    (h : (l.find? (fun q => q.1 == k)).map Prod.snd = some req) :
    ((mapUpdate k f l).find? (fun q => q.1 == k)).map Prod.snd = some (f req) := by
  cases hf : l.find? (fun q => q.1 == k) with
  | none => rw [hf] at h; cases h
  | some pr =>
    rw [hf] at h
    injection h with h2
    rw [find?_mapUpdate_self k f l pr hf]
    rw [← h2]
    rfl

/-- C6: sending "get_document_info" while the Connection is open and the
current Channel is "design-42" writes an envelope with type "message",
channel "design-42" and the generated identifier appearing as the outer
id, the inner message id and params.commandId; a subsequent terminal
ResponseEnvelope with the matching id resolves the call with its result
and deregisters the command. -/
theorem C6_envelope_shape_and_resolution (st : FigmaState)
    (params : List (String × JsValue)) (tmo : Nat) (fid : String)
    (now now2 : Nat) (res : JsValue)
    (hopen : st.wsState = .opened) (hch : st.currentChannel = some "design-42")
    (hid : fid ≠ "") (hres : res.truthy = true) :
    (sendCommandToFigma st "get_document_info" params tmo fid now).1 =
      SendResult.sent
        { id := fid, type := "message",
          channel := some (.vStr "design-42"),
          message := { id := fid, command := "get_document_info",
                       params := objSet "commandId" (.vStr fid) params } } ∧
    List.lookup "commandId" (objSet "commandId" (.vStr fid) params) =
      some (.vStr fid) ∧
    (handleWsMessage (sendCommandToFigma st "get_document_info" params tmo fid now).2
        (responseFrame fid (some res) none) now2).completions =
      (sendCommandToFigma st "get_document_info" params tmo fid now).2.completions ++
        [(fid, Completion.resolved res)] ∧
    pendingHas (handleWsMessage
        (sendCommandToFigma st "get_document_info" params tmo fid now).2
        (responseFrame fid (some res) none) now2) fid = false := by
  obtain ⟨ws, ch, pend, tim, ntid, comp, lg⟩ := st
  have hws : ws = WsState.opened := hopen
  have hchv : ch = some "design-42" := hch
  subst hws
  subst hchv
  have hg2 : pendingGet (sendCommandToFigma
      { wsState := .opened, currentChannel := some "design-42", pending := pend,
        timers := tim, nextTid := ntid, completions := comp, log := lg }
      "get_document_info" params tmo fid now).2 fid =
      some { timeoutTid := ntid, lastActivity := now } := by
    rw [pendingGet]
    have hms := find?_mapSet_self fid { timeoutTid := ntid, lastActivity := now } pend
    rw [show ((sendCommandToFigma
      { wsState := .opened, currentChannel := some "design-42", pending := pend,
        timers := tim, nextTid := ntid, completions := comp, log := lg }
      "get_document_info" params tmo fid now).2.pending) =
        mapSet fid { timeoutTid := ntid, lastActivity := now } pend from rfl]
    rw [hms]
    rfl
  have hrr := response_resolves (sendCommandToFigma
      { wsState := .opened, currentChannel := some "design-42", pending := pend,
        timers := tim, nextTid := ntid, completions := comp, log := lg }
      "get_document_info" params tmo fid now).2 fid
      { timeoutTid := ntid, lastActivity := now } res now2 hg2 hid hres
  exact ⟨rfl, lookup_objSet "commandId" (.vStr fid) params, hrr.1, hrr.2.1⟩

/-- Witness for C6 at a concrete send and response. -/
theorem C6_witness :
    (sendCommandToFigma stC6 "get_document_info" [] 30000 "u7" 0).1 =
      SendResult.sent
        { id := "u7", type := "message",
          channel := some (.vStr "design-42"),
          message := { id := "u7", command := "get_document_info",
                       params := objSet "commandId" (.vStr "u7") [] } } ∧
    List.lookup "commandId" (objSet "commandId" (.vStr "u7") []) =
      some (.vStr "u7") ∧
    (handleWsMessage (sendCommandToFigma stC6 "get_document_info" [] 30000 "u7" 0).2
        (responseFrame "u7" (some (.vStr "ok")) none) 3).completions =
      (sendCommandToFigma stC6 "get_document_info" [] 30000 "u7" 0).2.completions ++
        [("u7", Completion.resolved (.vStr "ok"))] ∧
    pendingHas (handleWsMessage
        (sendCommandToFigma stC6 "get_document_info" [] 30000 "u7" 0).2
        (responseFrame "u7" (some (.vStr "ok")) none) 3) "u7" = false :=
  C6_envelope_shape_and_resolution stC6 [] 30000 "u7" 0 3 (.vStr "ok")
    rfl rfl (by decide) rfl

/-- C8: after a close-then-reopen cycle the Channel is cleared, and a
non-join command that would have been sent before the disconnect (open
Connection, joined channel) rejects with the no-channel error until a
fresh join succeeds. -/
theorem C8_rejoin_required_after_reconnect (st : FigmaState) (ch command : String)
    (params : List (String × JsValue)) (tmo : Nat) (fid : String)
    (now : Nat) (code : Nat) (reason : String) (fid2 : String) (now2 : Nat)
    (hopen : st.wsState = .opened) (hch : st.currentChannel = some ch)
    (hcht : ch ≠ "") (hc : command ≠ "join") :
    (∃ env, (sendCommandToFigma st command params tmo fid now).1 =
      SendResult.sent env) ∧
    (handleWsOpen (handleWsClose st code reason)).currentChannel = none ∧
    (sendCommandToFigma (handleWsOpen (handleWsClose st code reason))
        command params tmo fid2 now2).1 =
      SendResult.rejectedNow "Must join a channel before sending commands" := by
  have hcb : (command == "join") = false := by rw [beq_eq_false_iff_ne]; exact hc
  have hchb : (ch == "") = false := by rw [beq_eq_false_iff_ne]; exact hcht
  refine ⟨?_, rfl, ?_⟩
  · simp only [sendCommandToFigma]
    rw [if_neg (by rw [hopen]; decide)]
    rw [if_neg (by rw [hcb, hch]; simp [optStrTruthy, hchb])]
    exact ⟨_, rfl⟩
  · simp only [sendCommandToFigma]
    rw [if_neg (by exact fun hh => Bool.false_ne_true hh)]
    rw [if_pos (by rw [hcb]; rfl)]

/-- Witness for C8 at a concrete close-then-reopen cycle. -/
theorem C8_witness :
    (handleWsOpen (handleWsClose stC8 1001 "restart")).currentChannel = none ∧
    (sendCommandToFigma (handleWsOpen (handleWsClose stC8 1001 "restart"))
        "get_selection" [] 30000 "u5" 9).1 =
      SendResult.rejectedNow "Must join a channel before sending commands" := by
  have h := C8_rejoin_required_after_reconnect stC8 "design-42" "get_selection" [] 30000
    "u4" 1 1001 "restart" "u5" 9 rfl rfl (by decide) (by decide)
  exact ⟨h.2.1, h.2.2⟩

/-- C9: a ProgressEnvelope with status completed and progress 100 for a
registered command records no completion and leaves the command
registered (only its inactivity timeout is re-armed); the command is
completed only by the separate terminal ResponseEnvelope carrying the
final result, which resolves and deregisters it. -/
theorem C9_completed_progress_is_advisory (st : FigmaState) (id ct m : String)
    (req : PendingRequest) (p now2 : Nat) (res : JsValue)
    (hg : pendingGet st id = some req) (hid : id ≠ "")
    (hres : res.truthy = true) :
    (handleWsMessage st (progressFrame id ct "completed" 100 m) p).completions =
      st.completions ∧
    pendingGet (handleWsMessage st (progressFrame id ct "completed" 100 m) p) id =
      some { timeoutTid := st.nextTid, lastActivity := p } ∧
    (handleWsMessage
        (handleWsMessage st (progressFrame id ct "completed" 100 m) p)
        (responseFrame id (some res) none) now2).completions =
      (handleWsMessage st (progressFrame id ct "completed" 100 m) p).completions ++
        [(id, Completion.resolved res)] ∧
    pendingHas (handleWsMessage
        (handleWsMessage st (progressFrame id ct "completed" 100 m) p)
        (responseFrame id (some res) none) now2) id = false := by
  have hbeq : (id == "") = false := by rw [beq_eq_false_iff_ne]; exact hid
  have hcompl : (handleWsMessage st (progressFrame id ct "completed" 100 m) p).completions =
      st.completions := by
    simp only [handleWsMessage, progressFrame]
    rw [if_pos (by decide)]
    rw [Option.getD_some]
    rw [hg]
    dsimp only
    rw [if_pos (by rw [hbeq]; rfl)]
    split <;> rfl
  have hpend : (handleWsMessage st (progressFrame id ct "completed" 100 m) p).pending =
      mapUpdate id (fun r => { r with lastActivity := p, timeoutTid := st.nextTid })
        st.pending := by
    simp only [handleWsMessage, progressFrame]
    rw [if_pos (by decide)]
    rw [Option.getD_some]
    rw [hg]
    dsimp only
    rw [if_pos (by rw [hbeq]; rfl)]
    split <;> rfl
  have hget : pendingGet (handleWsMessage st (progressFrame id ct "completed" 100 m) p) id =
      some { timeoutTid := st.nextTid, lastActivity := p } := by
    rw [pendingGet, hpend]
    have hh : (st.pending.find? (fun q => q.1 == id)).map Prod.snd = some req := hg
    exact pendingGet_mapUpdate_self st.pending id _ req hh
  have hrr := response_resolves
    (handleWsMessage st (progressFrame id ct "completed" 100 m) p) id
    { timeoutTid := st.nextTid, lastActivity := p } res now2 hget hid hres
  exact ⟨hcompl, hget, hrr.1, hrr.2.1⟩

/-- Witness for C9 at a concrete completed-progress frame and response. -/
theorem C9_witness :
    (handleWsMessage stC9 (progressFrame "r9" "scan_text_nodes" "completed" 100 "done") 7).completions =
      stC9.completions ∧
    pendingGet (handleWsMessage stC9
        (progressFrame "r9" "scan_text_nodes" "completed" 100 "done") 7) "r9" =
      some { timeoutTid := 1, lastActivity := 7 } ∧
    (handleWsMessage
        (handleWsMessage stC9 (progressFrame "r9" "scan_text_nodes" "completed" 100 "done") 7)
        (responseFrame "r9" (some (.vStr "final")) none) 9).completions =
      (handleWsMessage stC9
        (progressFrame "r9" "scan_text_nodes" "completed" 100 "done") 7).completions ++
        [("r9", Completion.resolved (.vStr "final"))] ∧
    pendingHas (handleWsMessage
        (handleWsMessage stC9 (progressFrame "r9" "scan_text_nodes" "completed" 100 "done") 7)
        (responseFrame "r9" (some (.vStr "final")) none) 9) "r9" = false :=
  C9_completed_progress_is_advisory stC9 "r9" "scan_text_nodes" "done"
    { timeoutTid := 0, lastActivity := 0 } 7 9 (.vStr "final") rfl (by decide) rfl
